import Mathlib

/-!
# Verification of the query construction core of `go-graphql-client`

This file gives a shallow embedding of `query.go` — the type-to-text
compiler of the repository — and proves properties of it.

The Go code works by reflection over runtime types (`reflect.Type`).
We embed the fragment of Go's type structure that `query.go` inspects:
pointers, slices, fixed arrays, struct types (with their ordered field
lists and a flag recording whether `*T` implements `json.Unmarshaler`,
i.e. the opaque-scalar capability), and named scalar types.  A struct
field carries its Go name, its optional `graphql:"..."` tag value, and
its anonymous (embedded) marker, exactly the data `writeQuery` reads.
-/

set_option maxHeartbeats 1000000

namespace GraphQL

mutual

/-- Embedding of the fragment of `reflect.Type` inspected by `query.go`.
`structT name fields scalar` records the type name (`""` for anonymous
struct types), the ordered field list, and whether the pointer type
implements `json.Unmarshaler` (the opaque-scalar capability checked at
`query.go:168`).  `named n` is any other kind (a named scalar such as
`Int`, `Boolean`, `string`): `writeQuery`'s switch has no case for it. -/
inductive GoType : Type where
  | ptr (elem : GoType) : GoType
  | slice (elem : GoType) : GoType
  | array (elem : GoType) : GoType
  | structT (name : String) (fields : FieldList) (scalar : Bool) : GoType
  | named (name : String) : GoType

/-- Embedding of `reflect.StructField` as read by `writeQuery`
(`query.go:178-188`): the field name, the looked-up `graphql` tag
(`none` when the tag is absent), the `Anonymous` marker and the type. -/
inductive Field : Type where
  | mk (name : String) (tag : Option String) (anonymous : Bool) (type : GoType) : Field

/-- The ordered field list of a struct type (declaration order). -/
inductive FieldList : Type where
  | nil : FieldList
  | cons (f : Field) (fs : FieldList) : FieldList

end

namespace FieldList

/-- List append on field lists, used to state splicing properties. -/
def append : FieldList → FieldList → FieldList
  | .nil, gs => gs
  | .cons f fs, gs => .cons f (append fs gs)

instance : Append FieldList := ⟨append⟩

@[simp] theorem append_eq (fs gs : FieldList) : fs ++ gs = append fs gs := rfl

@[simp] theorem nil_append (gs : FieldList) : append FieldList.nil gs = gs := rfl

@[simp] theorem cons_append (f : Field) (fs gs : FieldList) :
    append (FieldList.cons f fs) gs = FieldList.cons f (append fs gs) := rfl

end FieldList

/-- The display name written for a non-inlined field
(`query.go:182-186`): the `graphql` tag value when present, else the
field's own name, verbatim. -/
def displayName : Field → String
  | .mk name tag _ _ => match tag with
    | some v => v
    | none => name

mutual

/-- Embedding of `writeQuery` (`query.go:162-194`), returning the text
written to the buffer.  The switch handles `Ptr` and `Slice` (unwrap,
recursing with `inline=false`), and `Struct`; every other kind —
including `Array` — falls through and writes nothing. -/
def writeQuery : GoType → Bool → String
  | .ptr t, _ => writeQuery t false
  | .slice t, _ => writeQuery t false
  | .structT _ fl scalar, inline =>
      if scalar then ""
      else (if inline then "" else "\x7b") ++ writeFields fl true
        ++ (if inline then "" else "\x7d")
  | .array _, _ => ""
  | .named _, _ => ""

/-- The field loop of `writeQuery` (`query.go:174-189`): a `,` is
written before every field except the first of the current struct. -/
def writeFields : FieldList → Bool → String
  | .nil, _ => ""
  | .cons f fs, first =>
      (if first then "" else ",") ++ writeField f ++ writeFields fs false

/-- One iteration of the field loop: the field is inlined iff it is
anonymous and has no `graphql` tag; a non-inlined field writes its
display name; then `writeQuery` recurses with the inline flag. -/
def writeField : Field → String
  | .mk name tag anonymous type =>
      let inlineField := anonymous && tag.isNone
      (if inlineField then "" else displayName (.mk name tag anonymous type))
        ++ writeQuery type inlineField

end

/-- Embedding of `query` (`query.go:154-158`): serialize the root shape,
never inlined. -/
def query (v : GoType) : String := writeQuery v false

/-- The two-field example shape `struct { Name string; Age *int }` with
no `graphql` tags, used by the spec's examples. -/
def exampleShape : GoType :=
  .structT "" (.cons (.mk "Name" none false (.named "string"))
    (.cons (.mk "Age" none false (.ptr (.named "int"))) .nil)) false

example : query exampleShape = "\x7bName,Age\x7d" := by
  simp [query, writeQuery, writeFields, writeField, displayName, exampleShape]

/-- The `"!"` suffix written when the type is a value (required) type
(`query.go:144-147`). -/
def bangIf (value : Bool) : String := if value then "!" else ""

/-- The name written in the default case of `writeArgumentType`
(`query.go:136-141`): the built-in `string` type is renamed to `ID`. -/
def argTypeName (n : String) : String := if n == "string" then "ID" else n

/-- Embedding of `writeArgumentType` (`query.go:122-148`).  A pointer
unwraps one level and recurses with `value=false` (and no `"!"` is
appended at the pointer level); slices and arrays emit `[elem!]`; every
other kind emits the type's name (the `reflect.Type.Name()`, which is
`""` for anonymous types) with the `string`→`ID` rename; finally `"!"`
is appended when `value` is true. -/
def writeArgumentType : GoType → Bool → String
  | .ptr t, _ => writeArgumentType t false
  | .slice e, value => "[" ++ writeArgumentType e true ++ "]" ++ bangIf value
  | .array e, value => "[" ++ writeArgumentType e true ++ "]" ++ bangIf value
  | .structT n _ _, value => argTypeName n ++ bangIf value
  | .named n, value => argTypeName n ++ bangIf value

/-- Byte/codepoint-wise lexicographic comparison of character lists,
modelling the string order used by Go's `sort.Strings`
(`query.go:104`). -/
def lexLe : List Char → List Char → Bool
  | [], _ => true
  | _ :: _, [] => false
  | a :: as, b :: bs =>
      if a.toNat < b.toNat then true
      else if b.toNat < a.toNat then false
      else lexLe as bs

/-- The lexicographic order on variable names used for sorting. -/
def strLe (a b : String) : Prop := lexLe a.data b.data = true

instance : DecidableRel strLe := fun a b => by unfold strLe; infer_instance

/-- A variable map entry: the variable name and the runtime type of the
stored value (all that `queryArguments` reads of the value, via
`reflect.TypeOf(vars[k])` at `query.go:111`).  The Go map is
modelled as an association list with unique keys. -/
abbrev VarMap := List (String × GoType)

/-- Go map indexing `variables[k]` (`query.go:111`).  For the keys
enumerated from the map itself the `none` branch is unreachable. -/
def lookupType (vars : VarMap) (k : String) : GoType :=
  match vars.find? (fun p => p.1 == k) with
  | some p => p.2
  | none => .named ""

/-- The sorted key list built at `query.go:100-104`. -/
def sortedKeys (vars : VarMap) : List String :=
  List.insertionSort strLe (vars.map Prod.fst)

/-- Embedding of `queryArguments` (`query.go:97-117`): emit
`$name:Type` for every key in sorted order, with no separator. -/
def queryArguments (vars : VarMap) : String :=
  String.join ((sortedKeys vars).map
    (fun k => "$" ++ k ++ ":" ++ writeArgumentType (lookupType vars k) true))

/-- The discriminant returned by `Option.Type()`.  The two recognized
constants live in the repository's option file; `other s` stands for
any unrecognized discriminant string `s`. -/
inductive OptionType : Type where
  | operationName : OptionType
  | operationDirective : OptionType
  | other (s : String) : OptionType

/-- The observable behaviour of a value of the `Option` interface:
its discriminant (`Type()`) and its string payload (`String()`). -/
structure QueryOption where
  type : OptionType
  str : String

/-- Embedding of `constructOptionsOutput` (`query.go:13-16`). -/
structure ConstructOptionsOutput where
  operationName : String
  operationDirectives : List String

/-- Embedding of `OperationDirectivesString` (`query.go:18-24`): join
the directives with single spaces and, when nonempty, wrap the result
in one leading and one trailing space. -/
def operationDirectivesString (coo : ConstructOptionsOutput) : String :=
  let s := String.intercalate " " coo.operationDirectives
  if s ≠ "" then " " ++ s ++ " " else ""

/-- The option loop of `constructOptions` (`query.go:29-38`):
operation-name overwrites, operation-directive appends, anything else
aborts with the invalid-option error. -/
def constructOptionsAux : ConstructOptionsOutput → List QueryOption →
    Except String ConstructOptionsOutput
  | acc, [] => .ok acc
  | acc, o :: os =>
    match o.type with
    | .operationName => constructOptionsAux ⟨o.str, acc.operationDirectives⟩ os
    | .operationDirective =>
        constructOptionsAux ⟨acc.operationName, acc.operationDirectives ++ [o.str]⟩ os
    | .other s => .error ("invalid query option type: " ++ s)

/-- Embedding of `constructOptions` (`query.go:26-41`). -/
def constructOptions (options : List QueryOption) : Except String ConstructOptionsOutput :=
  constructOptionsAux ⟨"", []⟩ options

/-- Embedding of `constructQuery` (`query.go:43-60`).  The result pair
models Go's `(string, error)` return: on error the text result is the
empty string. -/
def constructQuery (v : GoType) (vars : VarMap) (options : List QueryOption) :
    String × Option String :=
  let q := query v
  match constructOptions options with
  | .error e => ("", some e)
  | .ok oo =>
    if vars.length > 0 then
      ("query " ++ oo.operationName ++ "(" ++ queryArguments vars ++ ")"
        ++ operationDirectivesString oo ++ q, none)
    else if oo.operationName == "" && oo.operationDirectives.isEmpty then
      (q, none)
    else
      ("query " ++ oo.operationName ++ operationDirectivesString oo ++ q, none)

/-- Embedding of `constructMutation` (`query.go:62-77`). -/
def constructMutation (v : GoType) (vars : VarMap) (options : List QueryOption) :
    String × Option String :=
  let q := query v
  match constructOptions options with
  | .error e => ("", some e)
  | .ok oo =>
    if vars.length > 0 then
      ("mutation " ++ oo.operationName ++ "(" ++ queryArguments vars ++ ")"
        ++ operationDirectivesString oo ++ q, none)
    else if oo.operationName == "" && oo.operationDirectives.isEmpty then
      ("mutation" ++ q, none)
    else
      ("mutation " ++ oo.operationName ++ operationDirectivesString oo ++ q, none)

/-- Embedding of `constructSubscription` (`query.go:79-92`). -/
def constructSubscription (v : GoType) (vars : VarMap) (options : List QueryOption) :
    String × Option String :=
  let q := query v
  match constructOptions options with
  | .error e => ("", some e)
  | .ok oo =>
    if vars.length > 0 then
      ("subscription " ++ oo.operationName ++ "(" ++ queryArguments vars ++ ")"
        ++ operationDirectivesString oo ++ q, none)
    else if oo.operationName == "" && oo.operationDirectives.isEmpty then
      ("subscription" ++ q, none)
    else
      ("subscription " ++ oo.operationName ++ operationDirectivesString oo ++ q, none)

/-! ## Helper definitions and lemmas -/

/-- Root-level unwrapping of pointer and slice wrappers, the two kinds
`writeQuery`'s switch unwraps (`query.go:164-165`). -/
def unwrapPS : GoType → GoType
  | .ptr t => unwrapPS t
  | .slice t => unwrapPS t
  | t => t

/-- Whether a type is a struct (record) type. -/
def isStructType : GoType → Bool
  | .structT _ _ _ => true
  | _ => false

/-- Whether a type is a pointer type. -/
def isPtrType : GoType → Bool
  | .ptr _ => true
  | _ => false

/-- Whether an option discriminant is one `constructOptions` rejects. -/
def isInvalidOption : OptionType → Bool
  | .other _ => true
  | _ => false

/-- The last character of a string, if any. -/
def lastChar (s : String) : Option Char := s.data.getLast?

theorem writeQuery_nonStruct : ∀ t : GoType, isStructType (unwrapPS t) = false →
    writeQuery t false = ""
  | .ptr t, h => by
      have ht : isStructType (unwrapPS t) = false := by simpa [unwrapPS] using h
      simpa [writeQuery] using writeQuery_nonStruct t ht
  | .slice t, h => by
      have ht : isStructType (unwrapPS t) = false := by simpa [unwrapPS] using h
      simpa [writeQuery] using writeQuery_nonStruct t ht
  | .structT n fl s, h => by simp [unwrapPS, isStructType] at h
  | .array _, _ => by simp [writeQuery]
  | .named _, _ => by simp [writeQuery]

theorem constructOptionsAux_invalid (opts : List QueryOption) :
    ∀ acc, (∃ o ∈ opts, isInvalidOption o.type = true) →
    ∃ e, constructOptionsAux acc opts = .error e := by
  induction opts with
  | nil => intro acc h; simp at h
  | cons o os ih =>
    intro acc h
    rcases h with ⟨p, hp, hinv⟩
    rcases List.mem_cons.mp hp with rfl | hmem
    · cases ho : p.type with
      | other s =>
          exact ⟨"invalid query option type: " ++ s, by simp [constructOptionsAux, ho]⟩
      | operationName => rw [ho] at hinv; simp [isInvalidOption] at hinv
      | operationDirective => rw [ho] at hinv; simp [isInvalidOption] at hinv
    · cases ho : o.type with
      | other s =>
          exact ⟨"invalid query option type: " ++ s, by simp [constructOptionsAux, ho]⟩
      | operationName =>
          simpa [constructOptionsAux, ho] using ih _ ⟨p, hmem, hinv⟩
      | operationDirective =>
          simpa [constructOptionsAux, ho] using ih _ ⟨p, hmem, hinv⟩

/-- True when no field of the list carries a `graphql` tag. -/
def FieldList.noOverride : FieldList → Bool
  | .nil => true
  | .cons (.mk _ tag _ _) fs => tag.isNone && noOverride fs

theorem writeFields_append_false : ∀ fs gs : FieldList,
    writeFields (fs.append gs) false = writeFields fs false ++ writeFields gs false
  | .nil, gs => by simp [writeFields, String.empty_append]
  | .cons f fs, gs => by
      simp [writeFields, writeFields_append_false fs gs, String.append_assoc]

theorem writeFields_splice : ∀ (pre post : FieldList) (fname ename : String)
    (e : Field) (es : FieldList) (first : Bool),
    writeFields (pre.append (.cons (.mk fname none true
        (.structT ename (.cons e es) false)) post)) first
      = writeFields (pre.append ((FieldList.cons e es).append post)) first
  | .nil, post, fname, ename, e, es, first => by
      simp [writeFields, writeField, writeQuery, displayName,
        writeFields_append_false, String.append_assoc, String.empty_append,
        String.append_empty]
  | .cons p ps, post, fname, ename, e, es, first => by
      simp [writeFields, writeFields_splice ps post fname ename e es false,
        String.append_assoc]

theorem lexLe_total : ∀ as bs : List Char, lexLe as bs = true ∨ lexLe bs as = true
  | [], _ => Or.inl rfl
  | _ :: _, [] => Or.inr rfl
  | a :: as, b :: bs => by
      by_cases h1 : a.toNat < b.toNat
      · left; simp [lexLe, h1]
      · by_cases h2 : b.toNat < a.toNat
        · right; simp [lexLe, h2]
        · rcases lexLe_total as bs with h | h
          · left; simp [lexLe, h1, h2, h]
          · right; simp [lexLe, h1, h2, h]

theorem lexLe_trans : ∀ as bs cs : List Char,
    lexLe as bs = true → lexLe bs cs = true → lexLe as cs = true
  | [], _, _, _, _ => rfl
  | _ :: _, [], _, h1, _ => by simp [lexLe] at h1
  | _ :: _, _ :: _, [], _, h2 => by simp [lexLe] at h2
  | a :: as, b :: bs, c :: cs, h1, h2 => by
      simp only [lexLe] at h1 h2 ⊢
      split_ifs at h1 h2 ⊢ <;>
        first
          | rfl
          | exact lexLe_trans as bs cs h1 h2
          | omega

theorem lexLe_antisymm : ∀ as bs : List Char,
    lexLe as bs = true → lexLe bs as = true → as = bs
  | [], [], _, _ => rfl
  | [], _ :: _, _, h2 => by simp [lexLe] at h2
  | _ :: _, [], h1, _ => by simp [lexLe] at h1
  | a :: as, b :: bs, h1, h2 => by
      by_cases hab : a.toNat < b.toNat
      · simp [lexLe, hab, Nat.lt_asymm hab] at h2
      · by_cases hba : b.toNat < a.toNat
        · simp [lexLe, hba, Nat.lt_asymm hba] at h1
        · have hn : a.toNat = b.toNat := by omega
          have hc : a = b := Char.ext (UInt32.ext hn)
          have h1x : lexLe as bs = true := by simpa [lexLe, hab, hba] using h1
          have h2x : lexLe bs as = true := by simpa [lexLe, hab, hba] using h2
          rw [hc, lexLe_antisymm as bs h1x h2x]

instance : IsTotal String strLe := ⟨fun a b => lexLe_total a.data b.data⟩

instance : IsTrans String strLe :=
  ⟨fun a b c h1 h2 => lexLe_trans a.data b.data c.data h1 h2⟩

instance : IsAntisymm String strLe :=
  ⟨fun a b h1 h2 => String.ext (lexLe_antisymm a.data b.data h1 h2)⟩

theorem find?_eq_of_perm {l1 l2 : VarMap} (h : l1.Perm l2) :
    (l1.map Prod.fst).Nodup → ∀ k : String,
    l1.find? (fun p => p.1 == k) = l2.find? (fun p => p.1 == k) := by
  induction h with
  | nil => intro _ _; rfl
  | cons x h ih =>
      intro nd k
      simp only [List.find?]
      cases hx : (x.1 == k)
      · simp only [List.map_cons, List.nodup_cons] at nd
        exact ih nd.2 k
      · rfl
  | swap x y l =>
      intro nd k
      simp only [List.find?]
      cases hx : (x.1 == k) <;> cases hy : (y.1 == k) <;> try rfl
      simp only [List.map_cons, List.nodup_cons, List.mem_cons] at nd
      exact absurd (by rw [eq_of_beq hy, eq_of_beq hx]) (fun he => nd.1 (Or.inl he))
  | trans h1 h2 ih1 ih2 =>
      intro nd k
      rw [ih1 nd k, ih2 (((h1.map Prod.fst).nodup_iff).mp nd) k]

/-! ## Claims -/

/-- C1 (counterexample): contrary to the claim, `constructQuery` with an
empty variable map and no options does not prefix the selection with
`"query "`: on the two-field example shape it returns the bare
selection set, not `"query " ++ query exampleShape`. -/
theorem c1_counterexample :
    constructQuery exampleShape [] [] ≠ ("query " ++ query exampleShape, none) := by
  decide

/-- C1 (amended): for every shape, `constructQuery` with an empty
variable map and an empty options list returns `query v` — the
serialized selection set with no keyword and no space prefixed — and no
error.  (`query.go:55-57` returns the bare selection in the anonymous
no-variable case.) -/
theorem c1_amended (v : GoType) : constructQuery v [] [] = (query v, none) := rfl

/-- C2 (code evaluation): on the shape `struct { Name string; Age *int }`
the serializer emits the Go field names verbatim — `"{Name,Age}"` — and
not the lower-cased `"{name,age}"` promised by the claim and by the
code's own doc comment (`query.go:153`: `struct{Foo Int, BarBaz
*Boolean} -> "{foo,barBaz}"`). -/
theorem c2_code_eval :
    query exampleShape = "\x7bName,Age\x7d" ∧ query exampleShape ≠ "\x7bname,age\x7d" := by
  exact ⟨rfl, by decide⟩

/-- C3 (counterexample): with `N = 0` the claim fails: embedding a
record with zero fields leaves the parent loop's separating comma in
place, so `struct { Name string; E; Age *int }` with `E` an empty
embedded struct serializes to `"{Name,,Age}"`, which differs from the
serialization `"{Name,Age}"` of the manually flattened record. -/
theorem c3_counterexample :
    query (.structT "" (.cons (.mk "Name" none false (.named "string"))
        (.cons (.mk "E" none true (.structT "E" .nil false))
        (.cons (.mk "Age" none false (.ptr (.named "int"))) .nil))) false)
      ≠ query (.structT "" (.cons (.mk "Name" none false (.named "string"))
        (.cons (.mk "Age" none false (.ptr (.named "int"))) .nil)) false) := by
  decide

/-- C3 (amended): for every `N ≥ 1`, embedding a record `E` with `N`
fields, none of which has a name override, where `E` does not carry the
opaque-scalar capability, as an anonymous un-renamed field at any
position of a parent record is textually indistinguishable from
splicing `E`'s fields into the parent at that position.  (For `N = 0`
the comma emitted for the embedded field's position survives, and an
opaque-scalar `E` emits nothing instead of its fields.) -/
theorem c3_amended (pname fname ename : String) (pre post efields : FieldList)
    (h1 : efields ≠ .nil) (h2 : efields.noOverride = true) :
    query (.structT pname
        (pre ++ (.cons (.mk fname none true (.structT ename efields false)) post)) false)
      = query (.structT pname (pre ++ (efields ++ post)) false) := by
  cases efields with
  | nil => exact absurd rfl h1
  | cons e es =>
    simp only [query, writeQuery, if_neg Bool.false_ne_true, Bool.false_eq_true,
      if_false, FieldList.append_eq]
    rw [writeFields_splice pre post fname ename e es true]

/-- C3 (witness): the amended splice theorem applied to a concrete
parent with a one-field embedded record in its middle position. -/
theorem c3_witness :
    query (.structT ""
        ((FieldList.cons (.mk "Name" none false (.named "string")) .nil) ++
          (.cons (.mk "E" none true (.structT "E"
              (.cons (.mk "Inner" none false (.named "Int")) .nil) false))
            (.cons (.mk "Age" none false (.ptr (.named "int"))) .nil))) false)
      = query (.structT ""
        ((FieldList.cons (.mk "Name" none false (.named "string")) .nil) ++
          ((FieldList.cons (.mk "Inner" none false (.named "Int")) .nil) ++
            (.cons (.mk "Age" none false (.ptr (.named "int"))) .nil))) false) :=
  c3_amended "" "E" "E"
    (.cons (.mk "Name" none false (.named "string")) .nil)
    (.cons (.mk "Age" none false (.ptr (.named "int"))) .nil)
    (.cons (.mk "Inner" none false (.named "Int")) .nil)
    (fun h => FieldList.noConfusion h) rfl

/-- C4 (counterexample): a fixed-length array wrapper is not unwrapped
transparently: an array of the example struct serializes to nothing,
while the struct itself serializes to its selection set. -/
theorem c4_counterexample : query (.array exampleShape) ≠ query exampleShape := by
  decide

/-- C4 (amended): pointer and slice wrappers are unwrapped transparently
by the selection serializer — `T`, `*T` and `[]T` produce identical
output both at the root and as the type of a non-anonymous field — but
fixed-length arrays are not unwrapped (`writeQuery`'s switch at
`query.go:164` has cases only for `Ptr` and `Slice`; an array falls
through and emits nothing). -/
theorem c4_amended (t : GoType) :
    query (.ptr t) = query t ∧ query (.slice t) = query t ∧
    (∀ (n : String) (tag : Option String),
      writeField (.mk n tag false (.ptr t)) = writeField (.mk n tag false t) ∧
      writeField (.mk n tag false (.slice t)) = writeField (.mk n tag false t)) := by
  refine ⟨rfl, rfl, fun n tag => ⟨?_, ?_⟩⟩ <;> simp [writeField, writeQuery, displayName]

/-- C5 (confirmed): a struct type carrying the opaque-scalar capability
(`*T` implements `json.Unmarshaler`, `query.go:167-169`) serializes to
nothing for every field list and every inline flag — its fields are
never visited and no `{...}` block is produced — and a non-inlined
field of such a type contributes exactly its display name. -/
theorem c5_opaque_scalar :
    (∀ (name : String) (fl : FieldList) (inline : Bool),
      writeQuery (.structT name fl true) inline = "")
    ∧ (∀ (name n : String) (tag : Option String) (anon : Bool) (fl : FieldList),
      anon = false ∨ tag.isSome = true →
      writeField (.mk n tag anon (.structT name fl true)) =
        displayName (.mk n tag anon (.structT name fl true))) := by
  constructor
  · intro name fl inline; simp [writeQuery]
  · intro name n tag anon fl h
    rcases h with h | h
    · subst h; simp [writeField, writeQuery]
    · rcases Option.isSome_iff_exists.mp h with ⟨v, rfl⟩
      simp [writeField, writeQuery]

/-- C5 (witness): the opaque-scalar theorem applied to a concrete
one-field scalar struct in a concrete named field position. -/
theorem c5_witness :
    writeField (.mk "f" none false (.structT "T"
        (.cons (.mk "Hidden" none false (.named "Int")) .nil) true)) =
      displayName (.mk "f" none false (.structT "T"
        (.cons (.mk "Hidden" none false (.named "Int")) .nil) true)) :=
  c5_opaque_scalar.2 "T" "f" none false
    (.cons (.mk "Hidden" none false (.named "Int")) .nil) (Or.inl rfl)

/-- C9 (counterexample): for a raw scalar root the build operation does
not fail: it returns the empty selection text together with no error,
contradicting the claim that a Non-Record-Root error is returned. -/
theorem c9_counterexample : constructQuery (.named "Int") [] [] = ("", none) := rfl

/-- C9 (amended): for every root shape that, after unwrapping
pointer/slice wrappers, is not a record type, the code does not fail
fast: the selection serializer emits the empty string and the build
operations succeed with no error, producing the operation text built
around that empty selection (`query` at `query.go:154-158` has no error
return at all). -/
theorem c9_amended (v : GoType) (h : isStructType (unwrapPS v) = false) :
    query v = "" ∧ constructQuery v [] [] = ("", none) ∧
    constructMutation v [] [] = ("mutation", none) ∧
    constructSubscription v [] [] = ("subscription", none) := by
  have hq : query v = "" := writeQuery_nonStruct v h
  refine ⟨hq, ?_, ?_, ?_⟩ <;>
    simp [constructQuery, constructMutation, constructSubscription,
      constructOptions, constructOptionsAux, hq]

/-- C9 (witness): the amended claim applied to the scalar root `Int`. -/
theorem c9_witness :
    query (.named "Int") = "" ∧ constructQuery (.named "Int") [] [] = ("", none) ∧
    constructMutation (.named "Int") [] [] = ("mutation", none) ∧
    constructSubscription (.named "Int") [] [] = ("subscription", none) :=
  c9_amended (.named "Int") rfl

/-- C10 (confirmed): for every shape, every variable map and every
options list containing at least one option with an unrecognized
discriminant, all three builders return the invalid-option error
together with the empty string as the text result. -/
theorem c10_invalid_option (v : GoType) (vars : VarMap) (opts : List QueryOption)
    (h : ∃ o ∈ opts, isInvalidOption o.type = true) :
    (∃ e, constructQuery v vars opts = ("", some e)) ∧
    (∃ e, constructMutation v vars opts = ("", some e)) ∧
    (∃ e, constructSubscription v vars opts = ("", some e)) := by
  obtain ⟨e, he⟩ := constructOptionsAux_invalid opts ⟨"", []⟩ h
  refine ⟨⟨e, ?_⟩, ⟨e, ?_⟩, ⟨e, ?_⟩⟩ <;>
    simp [constructQuery, constructMutation, constructSubscription,
      constructOptions, he]

/-- C10 (witness): the invalid-option theorem applied to a concrete
unrecognized option. -/
theorem c10_witness :
    (∃ e, constructQuery exampleShape [] [⟨.other "bogus", "x"⟩] = ("", some e)) ∧
    (∃ e, constructMutation exampleShape [] [⟨.other "bogus", "x"⟩] = ("", some e)) ∧
    (∃ e, constructSubscription exampleShape [] [⟨.other "bogus", "x"⟩] = ("", some e)) :=
  c10_invalid_option exampleShape [] [⟨.other "bogus", "x"⟩]
    ⟨⟨.other "bogus", "x"⟩, by simp, rfl⟩

/-- C6 (confirmed): for variable maps holding the same set of
name-to-value entries (names unique), `queryArguments` produces
byte-identical output regardless of enumeration/insertion order: the
keys are sorted lexicographically before emission
(`query.go:100-104`). -/
theorem c6_sorted_deterministic (l1 l2 : VarMap) (hperm : l1.Perm l2)
    (hnd : (l1.map Prod.fst).Nodup) : queryArguments l1 = queryArguments l2 := by
  have hkeys : (l1.map Prod.fst).Perm (l2.map Prod.fst) := hperm.map Prod.fst
  have hp : (sortedKeys l1).Perm (sortedKeys l2) :=
    (List.perm_insertionSort strLe _).trans
      (hkeys.trans (List.perm_insertionSort strLe _).symm)
  have hs1 : List.Sorted strLe (sortedKeys l1) := List.sorted_insertionSort strLe _
  have hs2 : List.Sorted strLe (sortedKeys l2) := List.sorted_insertionSort strLe _
  have hsorted : sortedKeys l1 = sortedKeys l2 := List.eq_of_perm_of_sorted hp hs1 hs2
  have hfun : (fun k => "$" ++ k ++ ":" ++ writeArgumentType (lookupType l1 k) true)
      = (fun k => "$" ++ k ++ ":" ++ writeArgumentType (lookupType l2 k) true) := by
    funext k
    unfold lookupType
    rw [find?_eq_of_perm hperm hnd k]
  unfold queryArguments
  rw [hsorted, hfun]

/-- C6 (witness): the determinism theorem applied to the two orderings
of the spec's two-variable example map. -/
theorem c6_witness :
    queryArguments [("b", .ptr (.named "Boolean")), ("a", .named "Int")]
      = queryArguments [("a", .named "Int"), ("b", .ptr (.named "Boolean"))] :=
  c6_sorted_deterministic
    [("b", .ptr (.named "Boolean")), ("a", .named "Int")]
    [("a", .named "Int"), ("b", .ptr (.named "Boolean"))]
    (List.Perm.swap ("a", GoType.named "Int") ("b", GoType.ptr (GoType.named "Boolean")) [])
    (by decide)

/-- Recursively: no type name reached by `writeArgumentType` ends with
the character `!`.  True of every Go type, whose names are identifiers
(and `""` for anonymous types). -/
def namesOk : GoType → Bool
  | .ptr t => namesOk t
  | .slice t => namesOk t
  | .array t => namesOk t
  | .structT n _ _ => !(n.data.getLast? == some '!')
  | .named n => !(n.data.getLast? == some '!')

theorem lastChar_append (s t : String) (h : t.data ≠ []) :
    lastChar (s ++ t) = lastChar t := by
  unfold lastChar
  rw [String.data_append s t]
  exact s.data.getLast?_append_of_ne_nil h

theorem argTypeName_lastChar (n : String)
    (h : (n.data.getLast? == some '!') = false) :
    lastChar (argTypeName n) ≠ some '!' := by
  unfold argTypeName
  by_cases hn : n == "string"
  · simp only [hn, if_true]; decide
  · simp only [hn, Bool.false_eq_true, if_false, lastChar]
    exact ne_of_beq_false h

theorem writeArgumentType_false_lastChar : ∀ t : GoType, namesOk t = true →
    lastChar (writeArgumentType t false) ≠ some '!'
  | .ptr t, h => by
      have ht : namesOk t = true := by simpa [namesOk] using h
      simpa [writeArgumentType] using writeArgumentType_false_lastChar t ht
  | .slice e, _ => by
      have : writeArgumentType (.slice e) false
          = ("[" ++ writeArgumentType e true) ++ "]" := by
        simp [writeArgumentType, bangIf, String.append_empty, String.append_assoc]
      rw [this, lastChar_append _ "]" (by decide)]
      decide
  | .array e, _ => by
      have : writeArgumentType (.array e) false
          = ("[" ++ writeArgumentType e true) ++ "]" := by
        simp [writeArgumentType, bangIf, String.append_empty, String.append_assoc]
      rw [this, lastChar_append _ "]" (by decide)]
      decide
  | .structT n fl s, h => by
      have hn : (n.data.getLast? == some '!') = false := by
        simpa [namesOk] using h
      have : writeArgumentType (.structT n fl s) false = argTypeName n := by
        simp [writeArgumentType, bangIf, String.append_empty]
      rw [this]
      exact argTypeName_lastChar n hn
  | .named n, h => by
      have hn : (n.data.getLast? == some '!') = false := by
        simpa [namesOk] using h
      have : writeArgumentType (.named n) false = argTypeName n := by
        simp [writeArgumentType, bangIf, String.append_empty]
      rw [this]
      exact argTypeName_lastChar n hn

theorem writeArgumentType_true_bang : ∀ t : GoType, isPtrType t = false →
    lastChar (writeArgumentType t true) = some '!'
  | .ptr _, h => by simp [isPtrType] at h
  | .slice e, _ => by
      rw [show writeArgumentType (.slice e) true
          = ("[" ++ writeArgumentType e true ++ "]") ++ "!" from rfl]
      rw [lastChar_append _ "!" (by decide)]
      decide
  | .array e, _ => by
      rw [show writeArgumentType (.array e) true
          = ("[" ++ writeArgumentType e true ++ "]") ++ "!" from rfl]
      rw [lastChar_append _ "!" (by decide)]
      decide
  | .structT n _ _, _ => by
      rw [show writeArgumentType (.structT n _ _) true = argTypeName n ++ "!" from rfl]
      rw [lastChar_append _ "!" (by decide)]
      decide
  | .named n, _ => by
      rw [show writeArgumentType (.named n) true = argTypeName n ++ "!" from rfl]
      rw [lastChar_append _ "!" (by decide)]
      decide

/-- C7 (confirmed): the signature of a pointer type never ends with `!`
(for any Go type, whose names never end in `!`), the signature of any
non-pointer type with required=true ends with `!`, and the
`{"a": Int(123), "b": NewBoolean(true)}` example map yields the
variable block `($a:Int!$b:Boolean)`. -/
theorem c7_required_marker :
    (∀ (t : GoType) (v : Bool), namesOk t = true →
      lastChar (writeArgumentType (.ptr t) v) ≠ some '!')
    ∧ (∀ t : GoType, isPtrType t = false →
      lastChar (writeArgumentType t true) = some '!')
    ∧ "(" ++ queryArguments [("a", .named "Int"), ("b", .ptr (.named "Boolean"))] ++ ")"
        = "($a:Int!$b:Boolean)" := by
  refine ⟨?_, writeArgumentType_true_bang, rfl⟩
  intro t v h
  rw [show writeArgumentType (.ptr t) v = writeArgumentType t false from by
    simp [writeArgumentType]]
  exact writeArgumentType_false_lastChar t h

/-- C7 (witness): the required-marker theorem applied to the pointer
type `*Boolean` and the value type `Int`. -/
theorem c7_witness :
    lastChar (writeArgumentType (.ptr (.named "Boolean")) true) ≠ some '!'
    ∧ lastChar (writeArgumentType (.named "Int") true) = some '!' :=
  ⟨c7_required_marker.1 (.named "Boolean") true (by decide),
   c7_required_marker.2.1 (.named "Int") rfl⟩

/-- C8 (confirmed): the type-signature serializer renders the plain
`string` scalar type as `ID`: its signature coincides with that of a
type named `ID` for both values of the required flag, `string` with
required=true yields `"ID!"`, and a string-valued variable named `id`
is declared as `$id:ID!`. -/
theorem c8_string_renamed_id :
    (∀ v : Bool, writeArgumentType (.named "string") v =
      writeArgumentType (.named "ID") v)
    ∧ writeArgumentType (.named "string") true = "ID!"
    ∧ queryArguments [("id", .named "string")] = "$id:ID!" :=
  ⟨fun v => by cases v <;> rfl, rfl, rfl⟩

end GraphQL
